import Mathlib

set_option maxHeartbeats 1000000

/-!
Shallow embedding of the offline-cache service worker of the
leeward-point-guide repository (src/service-worker.js, the current
`leeward-point-cache-v11` revision): the tile coordinate mapper
(`latLonToTile`), the tile URL generator (`generateTileUrls`), the
install / activate lifecycle handlers and the fetch interception router.

JavaScript `number` arithmetic is modelled over the reals, machine
floats being out of scope; `Math.floor` becomes `Int.floor`.  Stateful
browser APIs (Cache storage, network) are modelled by explicit state
passing: the cache is an association list of keys to responses, and the
network is an oracle `String → Option Response` where `none` models a
rejected (thrown) fetch.
-/

/-- `BoundingRegion` — the shape of the `OFFLINE_TILE_BOUNDS` constant:
a closed geographic rectangle plus a list of zoom levels. -/
structure BoundingRegion where
  latMin : ℝ
  latMax : ℝ
  lonMin : ℝ
  lonMax : ℝ
  zoomLevels : List ℕ

/-- Embeds `latLonToTile(lat, lon, zoom)` (service-worker.js line 187):
`latRad = lat * Math.PI / 180`, `n = 2 ** zoom`,
`x = Math.floor((lon + 180) / 360 * n)`,
`y = Math.floor((1 - Math.log(Math.tan(latRad) + 1 / Math.cos(latRad)) / Math.PI) / 2 * n)`,
returning the pair `[x, y]`. -/
noncomputable def latLonToTile (lat lon : ℝ) (zoom : ℕ) : ℤ × ℤ :=
  let latRad := lat * Real.pi / 180
  let n : ℝ := 2 ^ zoom
  let x : ℤ := ⌊(lon + 180) / 360 * n⌋
  let y : ℤ := ⌊(1 - Real.log (Real.tan latRad + 1 / Real.cos latRad) / Real.pi) / 2 * n⌋
  (x, y)

/-- The canonical slippy-map formula exactly as the specification
states it (`n = 2^zoom`, `x = floor((lon + 180) / 360 * n)`,
`y = floor((1 - ln(tan(lat_rad) + sec(lat_rad)) / π) / 2 * n)`),
written independently of the source for the refinement comparison. -/
noncomputable def tileOf_spec (lat lon : ℝ) (zoom : ℕ) : ℤ × ℤ :=
  let latRad := lat * Real.pi / 180
  let n : ℝ := 2 ^ zoom
  (⌊(lon + 180) / 360 * n⌋,
   ⌊(1 - Real.log (Real.tan latRad + (Real.cos latRad)⁻¹) / Real.pi) / 2 * n⌋)

/-- The Mercator ordinate `ln(tan(latRad) + sec(latRad))` of a latitude;
a latitude is strictly inside the Mercator-projectable range exactly when
this value lies strictly between `-π` and `π`. -/
noncomputable def mercatorOrdinate (lat : ℝ) : ℝ :=
  Real.log (Real.tan (lat * Real.pi / 180) + 1 / Real.cos (lat * Real.pi / 180))

/-- The list `lo, lo+1, …, hi` (empty when `hi < lo`), modelling the
JavaScript loop `for (let i = lo; i <= hi; i++)`. -/
def intRange (lo hi : ℤ) : List ℤ :=
  (List.range (hi + 1 - lo).toNat).map (fun (i : ℕ) => lo + (i : ℤ))

/-- The tile rectangle enumerated by `generateTileUrls` at one zoom level
(service-worker.js lines 202-216): project the two corners
`(latMin, lonMin)` and `(latMax, lonMax)`, re-sort the projected
components with `Math.min` / `Math.max`, and run the nested
`for x` / `for y` loops over the inclusive ranges. -/
noncomputable def tilesAtZoom (bounds : BoundingRegion) (zoom : ℕ) : List (ℤ × ℤ) :=
  let c1 := latLonToTile bounds.latMin bounds.lonMin zoom
  let c2 := latLonToTile bounds.latMax bounds.lonMax zoom
  let xMin := min c1.1 c2.1
  let xMax := max c1.1 c2.1
  let yMin := min c1.2 c2.2
  let yMax := max c1.2 c2.2
  (intRange xMin xMax).flatMap (fun x => (intRange yMin yMax).map (fun y => (x, y)))

/-- The template string pushed for one tile:
`https://SUB.tile.openstreetmap.org/ZOOM/X/Y.png`. -/
def tileUrl (sub : String) (zoom : ℕ) (x y : ℤ) : String :=
  "https://" ++ sub ++ ".tile.openstreetmap.org/" ++ toString zoom ++ "/" ++
    toString x ++ "/" ++ toString y ++ ".png"

/-- The load-balancing subdomain labels a, b, c of line 212. -/
def SUBDOMAINS : List String := ["a", "b", "c"]

/-- Embeds `generateTileUrls(bounds)` (service-worker.js line 199):
for each zoom level, for each `(x, y)` of the corner-projected
rectangle, one URL per subdomain, in push order. -/
noncomputable def generateTileUrls (bounds : BoundingRegion) : List String :=
  bounds.zoomLevels.flatMap (fun zoom =>
    (tilesAtZoom bounds zoom).flatMap (fun t =>
      SUBDOMAINS.map (fun sub => tileUrl sub zoom t.1 t.2)))

/-- The `OFFLINE_TILE_BOUNDS` constant (service-worker.js line 174). -/
noncomputable def OFFLINE_TILE_BOUNDS : BoundingRegion :=
  ⟨29.18, 31.48, -82.98, -80.32, [12]⟩

/-- The `CACHE_NAME` constant of the current revision (line 130). -/
def CACHE_NAME : String := "leeward-point-cache-v11"

/-- The `PRECACHE_URLS` manifest of the current revision (line 131). -/
def PRECACHE_URLS : List String :=
  ["/",
   "/index.html",
   "/info.html",
   "/subcategory.html",
   "/search.html",
   "/map.html",
   "/admin.html",
   "/style.css",
   "/script.js",
   "/data.json",
   "/manifest.json",
   "/icon-192.png",
   "/icon-512.png",
   "/hero.png",
   "/hero-button.png",
   "/house-tour.html",
   "/howto.html",
   "/howto-item.html",
   "/topic.html",
   "/images/_incoming/0A740C08-D444-4C26-AC52-D4C65B1C6377.png",
   "/images/_incoming/0E8D1C7E-E189-4134-A62C-54BEAC462290.png",
   "/images/_incoming/0EA16F1C-6C3E-4E2A-80A9-3AB6CAE0186D.jpeg",
   "/images/_incoming/0EE26473-943E-4CA7-922F-7804FBF1A4E5.jpeg",
   "/images/_incoming/0F831DD5-FF18-4C1B-AF79-6870C1FBF2D.jpeg",
   "/images/_incoming/1A023195-03C2-45C2-8BC3-EE9A360D5381.jpeg",
   "/images/local_area/restaurant.png",
   "/images/local_area/cafe.png",
   "/images/local_area/bar_brewery.png",
   "/images/local_area/trail.png",
   "/images/local_area/beach.png"]

/-- Embeds `cache.addAll(urls)` over a key-set cache with a fetch-success
oracle `okF`: all-or-nothing — if every fetch succeeds all entries are
stored, otherwise the whole operation rejects (`none`). -/
def addAll (okF : String → Bool) (cache : List String) (urls : List String) :
    Option (List String) :=
  if urls.all okF then some (cache ++ urls) else none

/-- Embeds `cache.add(url).catch(() => {})` (service-worker.js line 231):
store the entry when the fetch succeeds, swallow the failure otherwise. -/
def addCaught (okF : String → Bool) (cache : List String) (url : String) : List String :=
  if okF url then cache ++ [url] else cache

/-- Embeds the install handler of the current revision (lines 221-235):
`await cache.addAll(PRECACHE_URLS)` first — its failure rejects the whole
`waitUntil` promise (`none`) — then every generated tile URL is added
with its own swallowed failure. -/
noncomputable def installEvent (okF : String → Bool) : Option (List String) :=
  match addAll okF [] PRECACHE_URLS with
  | none => none
  | some c => some ((generateTileUrls OFFLINE_TILE_BOUNDS).foldl (addCaught okF) c)

/-- Embeds the activate handler (lines 237-247): every cache generation
whose key is not `CACHE_NAME` is deleted, so exactly the keys equal to
`CACHE_NAME` survive. -/
def activateEvent (keys : List String) : List String :=
  keys.filter (fun key => key == CACHE_NAME)

/-- One character of the tile-host test `startsWith` helper: does `pat`
occur as a prefix of `s`? -/
def charPrefix : List Char → List Char → Bool
  | [], _ => true
  | _ :: _, [] => false
  | p :: ps, c :: cs => p == c && charPrefix ps cs

/-- Does `pat` occur as a contiguous substring of `s`?  This is what an
unanchored regex test of a literal pattern decides. -/
def charInfix (pat : List Char) : List Char → Bool
  | [] => charPrefix pat []
  | c :: cs => charPrefix pat (c :: cs) || charInfix pat cs

/-- The literal pattern spelled inside the tile-classification regex of
the fetch handler (line 255): `\.tile\.openstreetmap\.org\/`. -/
def tileHostPattern : String := ".tile.openstreetmap.org/"

/-- The tile classification of the fetch router: an unanchored test of
`tileHostPattern` against the request URL. -/
def isTileRequest (url : String) : Bool :=
  charInfix tileHostPattern.data url.data

/-- The exact source text of the condition on line 255 of
service-worker.js, between the parentheses of the `if`. -/
def tileConditionSource : String := "/\\.tile\\.openstreetmap\\.org\\/.test(url)"

/-- Scans the body of a JavaScript regular-expression literal for its
closing, unescaped `/` delimiter (an escape `\c` consumes two
characters); returns `false` when the literal never closes. -/
def regexBodyCloses : List Char → Bool
  | [] => false
  | '\\' :: [] => false
  | '\\' :: _ :: rest => regexBodyCloses rest
  | '/' :: _ => true
  | _ :: rest => regexBodyCloses rest

/-- Is `s` a lexically terminated JavaScript regex literal prefix: an
opening `/` whose body reaches a closing unescaped `/`?  (A regex
literal must close before the end of its line.) -/
def jsRegexLiteralTerminated (s : String) : Bool :=
  match s.data with
  | '/' :: rest => regexBodyCloses rest
  | _ => false

/-- A network / cached response: HTTP status, body bytes, content type. -/
structure Response where
  status : ℕ
  body : List ℕ
  ctype : String
deriving DecidableEq

/-- Embeds `cache.match(request)`: the first stored entry whose key
equals the request URL, if any. -/
def cacheMatch (cache : List (String × Response)) (url : String) : Option Response :=
  match cache with
  | [] => none
  | (k, r) :: rest => if k = url then some r else cacheMatch rest url

/-- The numeric value of one base64 alphabet character. -/
def b64Val (c : Char) : ℕ :=
  if 65 ≤ c.toNat ∧ c.toNat ≤ 90 then c.toNat - 65
  else if 97 ≤ c.toNat ∧ c.toNat ≤ 122 then c.toNat - 71
  else if 48 ≤ c.toNat ∧ c.toNat ≤ 57 then c.toNat + 4
  else if c = '+' then 62
  else if c = '/' then 63
  else 0

/-- Base64 group decoding: four characters yield three bytes, a trailing
three yield two, a trailing two yield one. -/
def b64Chunks : List Char → List ℕ
  | a :: b :: c :: d :: rest =>
    let v := b64Val a * 2 ^ 18 + b64Val b * 2 ^ 12 + b64Val c * 2 ^ 6 + b64Val d
    (v / 2 ^ 16) :: (v / 2 ^ 8 % 2 ^ 8) :: (v % 2 ^ 8) :: b64Chunks rest
  | [a, b, c] =>
    let v := b64Val a * 2 ^ 12 + b64Val b * 2 ^ 6 + b64Val c
    [v / 2 ^ 10, v / 2 ^ 2 % 2 ^ 8]
  | [a, b] =>
    let v := b64Val a * 2 ^ 6 + b64Val b
    [v / 2 ^ 4]
  | _ => []

/-- Embeds the browser `atob` applied to a base64 string, as the byte
sequence it denotes (padding `=` stripped first). -/
def atob (s : String) : List ℕ :=
  b64Chunks (s.data.filter (fun c => c != '='))

/-- The base64 payload embedded on line 274 of service-worker.js. -/
def fallbackB64 : String :=
  "iVBORw0KGgoAAAANSUhEUgAAABAAAAAQCAYAAAAf8/9hAAAAMUlEQVR42mNgGAWjgH5gYmBI4T8GIhUyoCUjqYYGxBmUBkRsTAlgFQcAzi0AUAFhCNAODLZnAAAAAElFTkSuQmCC"

/-- The UTF-8 encoding of a JavaScript binary string, given by its code
points: a code point below `0x80` is one byte, one below `0x800` (which
covers the whole `0x80`-`0xFF` range `atob` can yield) becomes the two
bytes `0xC0 + c / 64` and `0x80 + c % 64`.  The Blob constructor applies
this encoding to every string part it receives. -/
def utf8Encode (cps : List ℕ) : List ℕ :=
  cps.flatMap (fun c => if c < 128 then [c] else [192 + c / 64, 128 + c % 64])

/-- The fallback response built on tile network failure (lines 272-276):
a fresh `Response` over `new Blob([atob(fallbackB64)])` with type
`image/png` (default status 200).  The Blob constructor UTF-8 encodes
the binary string `atob` returns, so the stored body is
`utf8Encode (atob fallbackB64)` — every decoded byte at or above `0x80`
arrives as two bytes, not the decoded payload itself. -/
def fallbackResponse : Response :=
  ⟨200, utf8Encode (atob fallbackB64), "image/png"⟩

/-- The outcome of one run of the fetch handler: the settled value of
`respondWith` (`Except.error` models a rejected request), the cache
contents afterwards, and how many network fetches were issued. -/
structure FetchOutcome where
  result : Except Unit Response
  cacheAfter : List (String × Response)
  networkCalls : ℕ

/-- Embeds the fetch handler of the current revision (lines 249-283).
Tile branch: cache hit returned as is; on miss fetch from network,
store a clone only when the status is 200, return the response; when the
fetch throws, return the fallback image.  Non-tile branch: cache hit,
else the network response with no write-back; a thrown network fetch
propagates as a rejected request.  The tile classification is modelled
by `isTileRequest`, the containment test spelled by the pattern of the
regex literal on line 255 (that literal itself is unterminated as
written; see `jsRegexLiteralTerminated`). -/
def handleFetch (cache : List (String × Response)) (net : String → Option Response)
    (url : String) : FetchOutcome :=
  if isTileRequest url then
    match cacheMatch cache url with
    | some r => ⟨Except.ok r, cache, 0⟩
    | none =>
      match net url with
      | some resp =>
        if resp.status = 200 then ⟨Except.ok resp, (url, resp) :: cache, 1⟩
        else ⟨Except.ok resp, cache, 1⟩
      | none => ⟨Except.ok fallbackResponse, cache, 1⟩
  else
    match cacheMatch cache url with
    | some r => ⟨Except.ok r, cache, 0⟩
    | none =>
      match net url with
      | some resp => ⟨Except.ok resp, cache, 1⟩
      | none => ⟨Except.error (), cache, 1⟩

/-! Helper lemmas. -/

theorem mem_intRange {x a b : ℤ} : x ∈ intRange a b ↔ a ≤ x ∧ x ≤ b := by
  unfold intRange
  rw [List.mem_map]
  constructor
  · rintro ⟨i, hm, rfl⟩
    have h := List.mem_range.mp hm
    omega
  · rintro ⟨h1, h2⟩
    refine ⟨(x - a).toNat, List.mem_range.mpr (by omega), by omega⟩

theorem foldl_addCaught (okF : String → Bool) (urls : List String) (c : List String) :
    urls.foldl (addCaught okF) c = c ++ urls.filter okF := by
  induction urls generalizing c with
  | nil => simp
  | cons u us ih =>
    cases h : okF u <;>
      simp [List.foldl_cons, addCaught, h, ih, List.filter_cons]

/-- C2: for every latitude, longitude and non-negative integer zoom,
`latLonToTile` returns exactly the canonical slippy-map pair
`(floor((lon+180)/360*2^zoom), floor((1 - ln(tan latRad + sec latRad)/π)/2*2^zoom))`
stated by the specification (`tileOf_spec`), and it is deterministic:
identical inputs always yield identical output. -/
theorem latLonToTile_canonical_formula :
    (∀ (lat lon : ℝ) (zoom : ℕ), latLonToTile lat lon zoom = tileOf_spec lat lon zoom) ∧
    (∀ (lat lon : ℝ) (zoom : ℕ), latLonToTile lat lon zoom = latLonToTile lat lon zoom) := by
  refine ⟨fun lat lon zoom => ?_, fun _ _ _ => rfl⟩
  simp [latLonToTile, tileOf_spec, one_div]

/-- C3: the tile-classification condition of the fetch handler (line 255
of service-worker.js) is, as written, a JavaScript regular-expression
literal that never reaches a closing unescaped `/` delimiter — the
written source is a lexical error, so the router cannot dispatch any
request by this pattern as the claim (and the comment in the code)
describes. -/
theorem tileCondition_regex_unterminated :
    jsRegexLiteralTerminated tileConditionSource = false := by decide

/-- C5: the activate handler deletes every cache generation whose key
differs from the current `CACHE_NAME` and keeps the current one, so the
survivors are exactly the keys equal to `CACHE_NAME`; in particular from
generations v1, v10, v11 with current v11, only v11 remains. -/
theorem activate_keeps_only_current :
    (∀ (keys : List String) (k : String),
      k ∈ activateEvent keys ↔ (k ∈ keys ∧ k = CACHE_NAME)) ∧
    activateEvent ["leeward-point-cache-v1", "leeward-point-cache-v10",
      "leeward-point-cache-v11"] = ["leeward-point-cache-v11"] := by
  constructor
  · intro keys k
    simp [activateEvent, List.mem_filter]
  · decide

/-- C7: a tile request whose key is present in the cache is answered
with the stored response unmodified, the cache is left unchanged, and
zero network calls are performed. -/
theorem tile_cache_hit_served_without_network (cache : List (String × Response))
    (net : String → Option Response) (url : String) (r : Response)
    (ht : isTileRequest url = true) (hc : cacheMatch cache url = some r) :
    handleFetch cache net url = ⟨Except.ok r, cache, 0⟩ := by
  simp [handleFetch, ht, hc]

/-- Witness for C7 at a concrete cached tile request. -/
theorem tile_cache_hit_served_without_network_witness :
    isTileRequest "https://a.tile.openstreetmap.org/12/1103/1674.png" = true ∧
    cacheMatch [("https://a.tile.openstreetmap.org/12/1103/1674.png",
        ⟨200, [137, 80, 78, 71], "image/png"⟩)]
        "https://a.tile.openstreetmap.org/12/1103/1674.png" =
      some ⟨200, [137, 80, 78, 71], "image/png"⟩ ∧
    handleFetch [("https://a.tile.openstreetmap.org/12/1103/1674.png",
        ⟨200, [137, 80, 78, 71], "image/png"⟩)] (fun _ => none)
        "https://a.tile.openstreetmap.org/12/1103/1674.png" =
      ⟨Except.ok ⟨200, [137, 80, 78, 71], "image/png"⟩,
       [("https://a.tile.openstreetmap.org/12/1103/1674.png",
        ⟨200, [137, 80, 78, 71], "image/png"⟩)], 0⟩ :=
  ⟨by decide, by decide,
   tile_cache_hit_served_without_network _ _ _ _ (by decide) (by decide)⟩

/-- C6: evaluated at a concrete uncached tile request whose network
fetch throws, the handler does settle (never a rejected request) with
the fallback response of content type `image/png` — but the body it
carries is NOT byte-identical to the embedded base64 transparent PNG:
the Blob constructor UTF-8 encodes the binary string `atob` yields, so
the decoded payload starting `0x89 0x50 0x4E 0x47` (the PNG signature)
is stored starting `0xC2 0x89 0x50 0x4E 0x47`, a corrupted image. -/
theorem tile_fallback_body_utf8_mangled :
    (handleFetch [] (fun _ => none)
        "https://b.tile.openstreetmap.org/12/1104/1675.png").result =
      Except.ok fallbackResponse ∧
    fallbackResponse.ctype = "image/png" ∧
    fallbackResponse.body ≠ atob fallbackB64 ∧
    (atob fallbackB64).take 4 = [137, 80, 78, 71] ∧
    fallbackResponse.body.take 5 = [194, 137, 80, 78, 71] := by
  refine ⟨?_, rfl, by decide, by decide, by decide⟩
  have ht : isTileRequest "https://b.tile.openstreetmap.org/12/1104/1675.png" = true := by
    decide
  simp [handleFetch, ht, cacheMatch]

/-- C8: a non-tile request is served from cache on hit; on miss the
network response is returned directly with the cache left unchanged
(no write-back); and a thrown network fetch while uncached propagates
to the caller as a rejected request. -/
theorem nontile_cache_first_no_writeback (cache : List (String × Response))
    (net : String → Option Response) (url : String)
    (hnt : isTileRequest url = false) :
    (∀ r, cacheMatch cache url = some r →
      handleFetch cache net url = ⟨Except.ok r, cache, 0⟩) ∧
    (∀ resp, cacheMatch cache url = none → net url = some resp →
      handleFetch cache net url = ⟨Except.ok resp, cache, 1⟩) ∧
    (cacheMatch cache url = none → net url = none →
      handleFetch cache net url = ⟨Except.error (), cache, 1⟩) := by
  refine ⟨fun r hc => ?_, fun resp hc hn => ?_, fun hc hn => ?_⟩
  · simp [handleFetch, hnt, hc]
  · simp [handleFetch, hnt, hc, hn]
  · simp [handleFetch, hnt, hc, hn]

/-- Witness for C8 at a concrete non-tile request, uncached, with a
failing network: the failure propagates. -/
theorem nontile_cache_first_no_writeback_witness :
    isTileRequest "https://example.com/page.html" = false ∧
    handleFetch [] (fun _ => none) "https://example.com/page.html" =
      ⟨Except.error (), [], 1⟩ :=
  ⟨by decide,
   (nontile_cache_first_no_writeback [] (fun _ => none) _ (by decide)).2.2 rfl rfl⟩

/-- C10: a tile request that misses the cache and receives a non-200
network response returns that response unchanged, stores nothing, and
does not substitute the fallback image (one network call is made, and
since the cache is unchanged the next request retries the network). -/
theorem tile_non200_passthrough_not_cached (cache : List (String × Response))
    (net : String → Option Response) (url : String) (resp : Response)
    (ht : isTileRequest url = true) (hc : cacheMatch cache url = none)
    (hn : net url = some resp) (hs : resp.status ≠ 200) :
    handleFetch cache net url = ⟨Except.ok resp, cache, 1⟩ := by
  simp [handleFetch, ht, hc, hn, hs]

/-- Witness for C10 at a concrete uncached tile request answered 404. -/
theorem tile_non200_passthrough_not_cached_witness :
    isTileRequest "https://c.tile.openstreetmap.org/12/1105/1676.png" = true ∧
    handleFetch [] (fun _ => some ⟨404, [], "text/html"⟩)
        "https://c.tile.openstreetmap.org/12/1105/1676.png" =
      ⟨Except.ok ⟨404, [], "text/html"⟩, [], 1⟩ :=
  ⟨by decide,
   tile_non200_passthrough_not_cached [] _ _ _ (by decide) rfl rfl (by decide)⟩

/-- C4: a static-asset fetch failure fails the whole install; with all
static assets fetched the install completes no matter which tile fetches
fail, leaving the store holding exactly the static manifest followed by
the successfully fetched subset of the generated tile endpoints — so all
N static entries, at most M tile entries, never more than N+M. -/
theorem install_static_atomic_tile_failures_swallowed (okF : String → Bool) :
    (¬ PRECACHE_URLS.all okF = true → installEvent okF = none) ∧
    (PRECACHE_URLS.all okF = true →
      installEvent okF =
        some (PRECACHE_URLS ++ (generateTileUrls OFFLINE_TILE_BOUNDS).filter okF) ∧
      (∀ u ∈ PRECACHE_URLS,
        u ∈ PRECACHE_URLS ++ (generateTileUrls OFFLINE_TILE_BOUNDS).filter okF) ∧
      (PRECACHE_URLS ++ (generateTileUrls OFFLINE_TILE_BOUNDS).filter okF).length ≤
        PRECACHE_URLS.length + (generateTileUrls OFFLINE_TILE_BOUNDS).length) := by
  constructor
  · intro h
    simp [installEvent, addAll, h]
  · intro h
    refine ⟨?_, fun u hu => List.mem_append_left _ hu, ?_⟩
    · simp [installEvent, addAll, h, foldl_addCaught]
    · simp only [List.length_append]
      exact Nat.add_le_add_left (List.length_filter_le _ _) _

/-- Witness for C4: with every fetch failing the install rejects; with
every fetch succeeding it completes with the full manifest stored. -/
theorem install_static_atomic_witness :
    (¬ PRECACHE_URLS.all (fun _ => false) = true ∧
      installEvent (fun _ => false) = none) ∧
    (PRECACHE_URLS.all (fun _ => true) = true ∧
      installEvent (fun _ => true) =
        some (PRECACHE_URLS ++
          (generateTileUrls OFFLINE_TILE_BOUNDS).filter (fun _ => true))) :=
  ⟨⟨by decide, (install_static_atomic_tile_failures_swallowed (fun _ => false)).1
      (by decide)⟩,
   ⟨by decide, ((install_static_atomic_tile_failures_swallowed (fun _ => true)).2
      (by decide)).1⟩⟩

/-- Membership in the per-zoom tile rectangle: exactly the pairs between
the re-sorted minima and maxima of the two projected corners. -/
theorem mem_tilesAtZoom (bounds : BoundingRegion) (zoom : ℕ) (x y : ℤ) :
    (x, y) ∈ tilesAtZoom bounds zoom ↔
      (min (latLonToTile bounds.latMin bounds.lonMin zoom).1
          (latLonToTile bounds.latMax bounds.lonMax zoom).1 ≤ x ∧
       x ≤ max (latLonToTile bounds.latMin bounds.lonMin zoom).1
          (latLonToTile bounds.latMax bounds.lonMax zoom).1 ∧
       min (latLonToTile bounds.latMax bounds.lonMax zoom).2
          (latLonToTile bounds.latMin bounds.lonMin zoom).2 ≤ y ∧
       y ≤ max (latLonToTile bounds.latMax bounds.lonMax zoom).2
          (latLonToTile bounds.latMin bounds.lonMin zoom).2) := by
  simp only [tilesAtZoom, List.mem_flatMap, List.mem_map, mem_intRange, Prod.mk.injEq]
  constructor
  · rintro ⟨a, ⟨h1, h2⟩, b, ⟨h3, h4⟩, rfl, rfl⟩
    omega
  · rintro ⟨h1, h2, h3, h4⟩
    exact ⟨x, ⟨by omega, by omega⟩, y, ⟨by omega, by omega⟩, rfl, rfl⟩

/-- C1: for a region with ordered bounds, at every requested zoom level
the coverage enumerated by `generateTileUrls` is the non-empty inclusive
rectangle between the element-wise min/max of the two projected corners
(re-sorted after projection: the x range spans min/max of x at `lonMin`
and at `lonMax`, the y range spans min/max of y at `latMax` and at
`latMin`), and every tile of the rectangle is emitted as a URL for each
subdomain. -/
theorem generateTileUrls_coverage (bounds : BoundingRegion)
    (hlat : bounds.latMin ≤ bounds.latMax) (hlon : bounds.lonMin ≤ bounds.lonMax)
    (zoom : ℕ) (hz : zoom ∈ bounds.zoomLevels) :
    tilesAtZoom bounds zoom ≠ [] ∧
    (∀ x y : ℤ,
      (x, y) ∈ tilesAtZoom bounds zoom ↔
        (min (latLonToTile bounds.latMin bounds.lonMin zoom).1
            (latLonToTile bounds.latMax bounds.lonMax zoom).1 ≤ x ∧
         x ≤ max (latLonToTile bounds.latMin bounds.lonMin zoom).1
            (latLonToTile bounds.latMax bounds.lonMax zoom).1 ∧
         min (latLonToTile bounds.latMax bounds.lonMax zoom).2
            (latLonToTile bounds.latMin bounds.lonMin zoom).2 ≤ y ∧
         y ≤ max (latLonToTile bounds.latMax bounds.lonMax zoom).2
            (latLonToTile bounds.latMin bounds.lonMin zoom).2)) ∧
    (∀ t ∈ tilesAtZoom bounds zoom, ∀ sub ∈ SUBDOMAINS,
      tileUrl sub zoom t.1 t.2 ∈ generateTileUrls bounds) := by
  refine ⟨?_, fun x y => mem_tilesAtZoom bounds zoom x y, fun t ht sub hsub => ?_⟩
  · apply List.ne_nil_of_mem
      (a := (min (latLonToTile bounds.latMin bounds.lonMin zoom).1
          (latLonToTile bounds.latMax bounds.lonMax zoom).1,
        min (latLonToTile bounds.latMax bounds.lonMax zoom).2
          (latLonToTile bounds.latMin bounds.lonMin zoom).2))
    rw [mem_tilesAtZoom]
    omega
  · simp only [generateTileUrls, List.mem_flatMap, List.mem_map]
    exact ⟨zoom, hz, t, ht, sub, hsub, rfl⟩

/-- Witness for C1 at the degenerate unit region with zoom level 0. -/
theorem generateTileUrls_coverage_witness :
    (0 : ℝ) ≤ (0 : ℝ) ∧ 0 ∈ ([0] : List ℕ) ∧
    tilesAtZoom ⟨0, 0, 0, 0, [0]⟩ 0 ≠ [] :=
  ⟨le_rfl, by simp,
   (generateTileUrls_coverage ⟨0, 0, 0, 0, [0]⟩ le_rfl le_rfl 0 (by simp)).1⟩

/-- The Mercator ordinate of the equator is zero. -/
theorem mercatorOrdinate_zero : mercatorOrdinate 0 = 0 := by
  simp [mercatorOrdinate]

/-- C9 counterexample: at the valid geographic coordinate
`(lat, lon) = (0, 180)` — equatorial latitude, strictly inside the
Mercator-projectable range — and zoom 0, `latLonToTile` returns
`x = 1 = 2^0`, violating the claimed invariant `x < 2^zoom`. -/
theorem latLonToTile_lon180_breaks_invariant :
    (-Real.pi < mercatorOrdinate 0 ∧ mercatorOrdinate 0 < Real.pi) ∧
    (latLonToTile 0 180 0).1 = 1 ∧ ¬((latLonToTile 0 180 0).1 < 2 ^ (0 : ℕ)) := by
  have hm := mercatorOrdinate_zero
  have hpi := Real.pi_pos
  have hx : (latLonToTile 0 180 0).1 = ⌊((180 : ℝ) + 180) / 360 * 2 ^ (0 : ℕ)⌋ := rfl
  have harg : ((180 : ℝ) + 180) / 360 * 2 ^ (0 : ℕ) = 1 := by norm_num
  refine ⟨⟨by rw [hm]; linarith, by rw [hm]; exact hpi⟩, ?_, ?_⟩
  · rw [hx, harg, Int.floor_one]
  · rw [hx, harg, Int.floor_one]
    norm_num

/-- C9 (amended): for every latitude strictly inside the
Mercator-projectable range (Mercator ordinate strictly between `-π` and
`π`), every longitude in `[-180, 180)` — rather than every longitude,
since `lon = 180` yields `x = 2^zoom` — and every non-negative zoom,
the tile returned by `latLonToTile` satisfies the TileCoordinate
invariant `0 ≤ x < 2^zoom` and `0 ≤ y < 2^zoom`. -/
theorem latLonToTile_tile_invariant (lat lon : ℝ) (zoom : ℕ)
    (h1 : -Real.pi < mercatorOrdinate lat) (h2 : mercatorOrdinate lat < Real.pi)
    (h3 : -180 ≤ lon) (h4 : lon < 180) :
    0 ≤ (latLonToTile lat lon zoom).1 ∧ (latLonToTile lat lon zoom).1 < 2 ^ zoom ∧
    0 ≤ (latLonToTile lat lon zoom).2 ∧ (latLonToTile lat lon zoom).2 < 2 ^ zoom := by
  have hpi := Real.pi_pos
  have hn : (0 : ℝ) < 2 ^ zoom := by positivity
  have hxv0 : (0 : ℝ) ≤ (lon + 180) / 360 := by
    apply div_nonneg <;> linarith
  have hxv1 : (lon + 180) / 360 < 1 := by
    rw [div_lt_one (by norm_num : (0 : ℝ) < 360)]
    linarith
  have hm1 : mercatorOrdinate lat / Real.pi < 1 := (div_lt_one hpi).mpr h2
  have hm2 : -1 < mercatorOrdinate lat / Real.pi := by
    rw [lt_div_iff₀ hpi]
    linarith
  have hyv0 : (0 : ℝ) ≤ (1 - mercatorOrdinate lat / Real.pi) / 2 := by linarith
  have hyv1 : (1 - mercatorOrdinate lat / Real.pi) / 2 < 1 := by linarith
  have hx : latLonToTile lat lon zoom =
      (⌊(lon + 180) / 360 * 2 ^ zoom⌋,
       ⌊(1 - mercatorOrdinate lat / Real.pi) / 2 * 2 ^ zoom⌋) := rfl
  rw [hx]
  refine ⟨Int.le_floor.mpr ?_, Int.floor_lt.mpr ?_, Int.le_floor.mpr ?_, Int.floor_lt.mpr ?_⟩
  · push_cast
    exact mul_nonneg hxv0 hn.le
  · push_cast
    calc (lon + 180) / 360 * 2 ^ zoom < 1 * 2 ^ zoom :=
          mul_lt_mul_of_pos_right hxv1 hn
      _ = 2 ^ zoom := one_mul _
  · push_cast
    exact mul_nonneg hyv0 hn.le
  · push_cast
    calc (1 - mercatorOrdinate lat / Real.pi) / 2 * 2 ^ zoom < 1 * 2 ^ zoom :=
          mul_lt_mul_of_pos_right hyv1 hn
      _ = 2 ^ zoom := one_mul _

/-- Witness for the amended C9 at the equator, the prime meridian and
zoom 12. -/
theorem latLonToTile_tile_invariant_witness :
    (-Real.pi < mercatorOrdinate 0 ∧ mercatorOrdinate 0 < Real.pi) ∧
    (-180 ≤ (0 : ℝ) ∧ (0 : ℝ) < 180) ∧
    (0 ≤ (latLonToTile 0 0 12).1 ∧ (latLonToTile 0 0 12).1 < 2 ^ 12 ∧
     0 ≤ (latLonToTile 0 0 12).2 ∧ (latLonToTile 0 0 12).2 < 2 ^ 12) := by
  have h1 : -Real.pi < mercatorOrdinate 0 := by
    rw [mercatorOrdinate_zero]
    linarith [Real.pi_pos]
  have h2 : mercatorOrdinate 0 < Real.pi := by
    rw [mercatorOrdinate_zero]
    exact Real.pi_pos
  exact ⟨⟨h1, h2⟩, ⟨by norm_num, by norm_num⟩,
    latLonToTile_tile_invariant 0 0 12 h1 h2 (by norm_num) (by norm_num)⟩
